import Mathlib

/-!
Shallow embedding of the AI-table ingestion pipeline of this repository:
  * src/src/utils/ai_table_json_validator.py  (AITableJSONValidator)
  * src/src/models/ai_table_data.py           (data model)
  * src/src/utils/column_type_detector.py     (ColumnTypeDetector)
  * src/src/core/ai_table_manager.py          (AITableManager.create_table_from_ai)

Modelling conventions:
  * Parsed JSON values are modelled by the inductive `JValue`.  JSON numbers
    appearing in the claims are integers (`category_id`), modelled by `Int`;
    Python `bool` is a separate constructor because `jsonschema` distinguishes
    booleans from integers while Python's `isinstance(x, int)` does not.
  * Python float division is modelled by exact division in `ℚ`; the thresholds
    (0.7, 0.5, ...) become the exact rationals 7/10, 1/2, ...
  * The text of error messages produced by the `jsonschema` library itself
    (the `e.message` interpolated into "Estructura inválida: ...") is internal
    to that library and is modelled by the fixed tag "Estructura inválida";
    no claim depends on that text.  Messages produced by the repository's own
    code are modelled verbatim, except that single-quote characters around
    field names are dropped.
  * `str.lower()/.strip()` are modelled by the structurally recursive
    `pyLower`/`pyStrip` below (ASCII case mapping, ASCII whitespace);
    Python's Unicode-aware `isdigit/isalpha/isalnum` by Lean's `Char` tests.
    These agree with Python on the ASCII data of every claim.
-/

/-- A parsed JSON value (the result of `json.loads`). -/
inductive JValue where
  | null : JValue
  | bool : Bool → JValue
  | int : Int → JValue
  | str : String → JValue
  | arr : List JValue → JValue
  | obj : List (String × JValue) → JValue

/-- `d[k]` for a JSON object; `none` when `d` is not an object or lacks `k`
(in Python those lookups raise and are handled by the callers modelled below). -/
def objGet : JValue → String → Option JValue
  | JValue.obj fs, k => (fs.find? (fun p => p.1 == k)).map (fun p => p.2)
  | _, _ => none

/-- Python `k in d`.  For dictionaries this is key membership; for lists and
strings Python tests element membership / substring.  On numbers and `None`
Python raises `TypeError`; that case is modelled as `false` and is never
reached by any theorem below (all validated inputs are objects). -/
def listStarts : List Char → List Char → Bool
  | _, [] => true
  | [], _ :: _ => false
  | c :: cs, d :: ds => c == d && listStarts cs ds

def listHas : List Char → List Char → Bool
  | [], sub => sub.isEmpty
  | c :: cs, sub => listStarts (c :: cs) sub || listHas cs sub

/-- Substring test (`sub in s` for Python strings, `re.search` on a literal). -/
def strContains (s sub : String) : Bool := listHas s.data sub.data

/-- The ASCII whitespace removed by Python `str.strip()`. -/
def isPySpace (c : Char) : Bool :=
  c == ' ' || c == '\t' || c == '\n' || c == '\r' || c == '\x0b' || c == '\x0c'

/-- Python `str.strip()` (ASCII whitespace from both ends). -/
def pyStrip (s : String) : String :=
  String.mk (((s.data.dropWhile isPySpace).reverse.dropWhile isPySpace).reverse)

def pyLowerChar (c : Char) : Char :=
  if 'A' ≤ c && c ≤ 'Z' then Char.ofNat (c.toNat + 32) else c

/-- Python `str.lower()` (ASCII case mapping). -/
def pyLower (s : String) : String := String.mk (s.data.map pyLowerChar)

def hasKey : JValue → String → Bool
  | JValue.obj fs, k => fs.any (fun p => p.1 == k)
  | JValue.arr xs, k => xs.any (fun v => match v with
      | JValue.str s => s == k
      | _ => false)
  | JValue.str s, k => strContains s k
  | _, _ => false

/-- Python truthiness of a parsed JSON value. -/
def truthy : JValue → Bool
  | JValue.str s => s.length != 0
  | JValue.int n => n != 0
  | JValue.bool b => b
  | JValue.arr xs => !xs.isEmpty
  | JValue.obj fs => !fs.isEmpty
  | JValue.null => false

/-- Python `isinstance(x, int)` — true for both ints and bools
(`bool` is a subclass of `int`). -/
def isPyInt : JValue → Bool
  | JValue.int _ => true
  | JValue.bool _ => true
  | _ => false

def JValue.isStr : JValue → Bool
  | JValue.str _ => true
  | _ => false

def JValue.isBool : JValue → Bool
  | JValue.bool _ => true
  | _ => false

/-- Python `len(x)` for values that support it (`str`, `list`, `dict`);
`none` models the `TypeError` raised on the rest. -/
def jLen : JValue → Option Nat
  | JValue.str s => some s.length
  | JValue.arr xs => some xs.length
  | JValue.obj fs => some fs.length
  | _ => none

/-! ### The fixed JSON schema (ai_table_json_validator.py, `SCHEMA`)

The checks below embed Draft-7 validation of the literal `SCHEMA` object:
`required` keys must be present, each listed property that is present must
satisfy its subschema, and — per Draft 7 — properties not listed are allowed.
-/

/-- Draft-7 check of an optional property: vacuously true when absent. -/
def optCheck (o : JValue) (k : String) (p : JValue → Bool) : Bool :=
  match objGet o k with
  | some v => p v
  | none => true

/-- Subschema for entries of `table_structure.columns`. -/
def checkColumn (c : JValue) : Bool :=
  (match objGet c "name" with
   | some (JValue.str s) => decide (1 ≤ s.length) && decide (s.length ≤ 50)
   | _ => false) &&
  optCheck c "type" (fun v => match v with
    | JValue.str s => s == "TEXT" || s == "URL"
    | _ => false) &&
  optCheck c "is_sensitive" JValue.isBool &&
  optCheck c "description" JValue.isStr

/-- Subschema for `table_config`. -/
def checkConfig (cfg : JValue) : Bool :=
  (match objGet cfg "table_name" with
   | some (JValue.str s) => decide (1 ≤ s.length) && decide (s.length ≤ 50)
   | _ => false) &&
  (match objGet cfg "category_id" with
   | some (JValue.int n) => decide (1 ≤ n)
   | _ => false) &&
  optCheck cfg "tags" (fun v => match v with
    | JValue.arr xs => xs.all JValue.isStr
    | _ => false) &&
  optCheck cfg "auto_detect_sensitive" JValue.isBool &&
  optCheck cfg "auto_detect_urls" JValue.isBool

/-- Subschema for `table_structure`. -/
def checkStructure (ts : JValue) : Bool :=
  match objGet ts "columns" with
  | some (JValue.arr cols) =>
      decide (1 ≤ cols.length) && decide (cols.length ≤ 20) && cols.all checkColumn
  | _ => false

/-- Subschema for `table_data`. -/
def checkData (td : JValue) : Bool :=
  match td with
  | JValue.arr rows =>
      decide (1 ≤ rows.length) && decide (rows.length ≤ 100) &&
      rows.all (fun r => match r with
        | JValue.arr cells => cells.all JValue.isStr
        | _ => false)
  | _ => false

/-- `jsonschema.validate(instance=data, schema=SCHEMA)` succeeds. -/
def schemaCheck (d : JValue) : Bool :=
  match objGet d "table_config", objGet d "table_structure", objGet d "table_data" with
  | some cfg, some ts, some td => checkConfig cfg && checkStructure ts && checkData td
  | _, _, _ => false

/-! ### Manual fallback validation (`AITableJSONValidator._basic_validation`) -/

/-- Per-column loop of the fallback (index is 0-based, messages 1-based). -/
def columnErrorList : Nat → List JValue → List String
  | _, [] => []
  | i, c :: cs =>
    (match c with
     | JValue.obj _ =>
        (if hasKey c "name" && truthy ((objGet c "name").getD JValue.null) then []
         else ["Columna " ++ toString (i + 1) ++ ": name es requerido"]) ++
        (if hasKey c "type" then
           (match (objGet c "type").getD JValue.null with
            | JValue.str s =>
               if s == "TEXT" || s == "URL" then []
               else ["Columna " ++ toString (i + 1) ++ ": type debe ser TEXT o URL"]
            | _ => ["Columna " ++ toString (i + 1) ++ ": type debe ser TEXT o URL"])
         else [])
     | _ => ["Columna " ++ toString (i + 1) ++ " debe ser un objeto"]) ++
    columnErrorList (i + 1) cs

/-- Per-row loop of the fallback: every row must be a list. -/
def rowArrayErrorList : Nat → List JValue → List String
  | _, [] => []
  | i, r :: rs =>
    (match r with
     | JValue.arr _ => []
     | _ => ["Fila " ++ toString (i + 1) ++ " debe ser un array"]) ++
    rowArrayErrorList (i + 1) rs

/-- `AITableJSONValidator._basic_validation(data)`: the manual field-by-field
check used when the `jsonschema` library is unavailable.  Returns the list of
collected errors (empty iff the input passes).  For a non-container top-level
value Python's `in` test raises `TypeError`; that unreachable case is modelled
by a sentinel error. -/
def basic_validation (data : JValue) : List String :=
  match data with
  | JValue.int _ => ["TypeError"]
  | JValue.bool _ => ["TypeError"]
  | JValue.null => ["TypeError"]
  | _ =>
    let e1 :=
      (if hasKey data "table_config" then [] else ["Falta campo requerido: table_config"]) ++
      (if hasKey data "table_structure" then [] else ["Falta campo requerido: table_structure"]) ++
      (if hasKey data "table_data" then [] else ["Falta campo requerido: table_data"])
    if !e1.isEmpty then e1
    else
      let config := (objGet data "table_config").getD JValue.null
      let eCfg :=
        (if hasKey config "table_name" && truthy ((objGet config "table_name").getD JValue.null)
         then [] else ["table_config.table_name es requerido"]) ++
        (if hasKey config "category_id" && isPyInt ((objGet config "category_id").getD JValue.null)
         then [] else ["table_config.category_id debe ser un entero"])
      let structv := (objGet data "table_structure").getD JValue.null
      let eSt :=
        if !hasKey structv "columns" then ["table_structure.columns es requerido"]
        else
          match (objGet structv "columns").getD JValue.null with
          | JValue.arr cols =>
            if cols.length == 0 then ["table_structure.columns no puede estar vacío"]
            else if cols.length > 20 then ["table_structure.columns: máximo 20 columnas"]
            else columnErrorList 0 cols
          | _ => ["table_structure.columns debe ser un array"]
      let tdv := (objGet data "table_data").getD JValue.null
      let eTd :=
        match tdv with
        | JValue.arr rows =>
          if rows.length == 0 then ["table_data no puede estar vacío"]
          else if rows.length > 100 then ["table_data: máximo 100 filas"]
          else rowArrayErrorList 0 rows
        | _ => ["table_data debe ser un array"]
      eCfg ++ eSt ++ eTd

/-! ### The validator (`AITableJSONValidator.validate_json_string`) -/

/-- Result of validation (`TableValidationResult` in ai_table_data.py);
`dimensions` is the optional `(rows, cols)` pair. -/
structure TableValidationResult where
  is_valid : Bool
  errors : List String
  warnings : List String
  dimensions : Option (Nat × Nat)

/-- The per-row mismatch message
`f"Fila {i+1} tiene {len(row)} columnas, esperadas {num_cols}"`. -/
def filaMsg (n x y : Nat) : String :=
  "Fila " ++ toString n ++ " tiene " ++ toString x ++ " columnas, esperadas " ++ toString y

/-- Step-3 loop of `validate_json_string`: one error per row whose length
differs from the declared column count (0-based index `i`, 1-based message). -/
def rowMismatchErrors (numCols : Nat) : Nat → List JValue → List String
  | _, [] => []
  | i, r :: rs =>
    (match jLen r with
     | some l => if l ≠ numCols then [filaMsg (i + 1) l numCols] else []
     | none => []) ++
    rowMismatchErrors numCols (i + 1) rs

/-- A cell counts as empty in the warning pass iff
`not cell or not str(cell).strip()`. -/
def cellEmpty (c : JValue) : Bool :=
  !truthy c ||
  (match c with
   | JValue.str s => (pyStrip s).data.isEmpty
   | _ => false)

/-- The catch-all branch of step 3 (`except Exception`): any lookup or `len`
failure is converted to this single error.  Unreachable after either
validation path has succeeded. -/
def excResult : TableValidationResult :=
  { is_valid := false, errors := ["Error en validación adicional"],
    warnings := [], dimensions := none }

/-- Steps 3–6 of `validate_json_string`: row/column consistency, dimensions,
warnings, and the final `is_valid = True`.  The numeric part of the
empty-cell warning text (a float formatted with `:.1f`) is omitted from the
modelled message; no theorem inspects warning text. -/
def additionalValidation (data : JValue) : TableValidationResult :=
  match objGet data "table_structure" with
  | none => excResult
  | some ts =>
    match objGet ts "columns" with
    | none => excResult
    | some colsv =>
      match jLen colsv with
      | none => excResult
      | some numCols =>
        match objGet data "table_data" with
        | some (JValue.arr rows) =>
          if rows.all (fun r => (jLen r).isSome) then
            let errs := rowMismatchErrors numCols 0 rows
            if errs.isEmpty then
              let rowsCount := rows.length
              let emptyCells := (rows.map (fun r => match r with
                | JValue.arr cells => cells.countP cellEmpty
                | _ => 0)).sum
              let totalCells := rowsCount * numCols
              let pct : ℚ := if totalCells > 0 then (emptyCells : ℚ) / (totalCells : ℚ) * 100 else 0
              let warns :=
                (if numCols > 10 then
                  ["Tabla tiene " ++ toString numCols ++
                   " columnas (muchas columnas pueden dificultar la visualización)"] else []) ++
                (if rowsCount > 50 then
                  ["Tabla tiene " ++ toString rowsCount ++ " filas (puede tardar en crearse)"] else []) ++
                (if pct > 30 then
                  ["% de celdas vacías (considera reducir filas/columnas)"] else [])
              { is_valid := true, errors := [], warnings := warns,
                dimensions := some (rowsCount, numCols) }
            else
              { is_valid := false, errors := errs, warnings := [], dimensions := none }
          else excResult
        | _ => excResult

/-- `AITableJSONValidator.validate_json_string`.  The JSON-text parse of
step 1 is modelled by the `Option`: `none` is a `json.JSONDecodeError`
(whose library message is elided), `some data` a successful parse.
`jsonschema_available` selects between the library schema check and the
manual fallback, exactly as the module-level flag does. -/
def validate_json_string (jsonschema_available : Bool) (parsed : Option JValue) :
    TableValidationResult :=
  match parsed with
  | none => { is_valid := false, errors := ["JSON inválido"], warnings := [], dimensions := none }
  | some data =>
    if jsonschema_available then
      if schemaCheck data then additionalValidation data
      else { is_valid := false, errors := ["Estructura inválida"], warnings := [], dimensions := none }
    else
      let errs := basic_validation data
      if errs.isEmpty then additionalValidation data
      else { is_valid := false, errors := errs, warnings := [], dimensions := none }

/-- Whether the structural phase of the selected path accepts `data`. -/
def structuralOk (b : Bool) (data : JValue) : Bool :=
  if b then schemaCheck data else (basic_validation data).isEmpty

/-- Extractor for `data["table_structure"]["columns"]` as a list. -/
def colsOf (d : JValue) : Option (List JValue) :=
  match objGet d "table_structure" with
  | some ts =>
    match objGet ts "columns" with
    | some (JValue.arr cs) => some cs
    | _ => none
  | none => none

/-- Extractor for `data["table_data"]` as a list. -/
def rowsOf (d : JValue) : Option (List JValue) :=
  match objGet d "table_data" with
  | some (JValue.arr rs) => some rs
  | _ => none

/-! ### Column type detector (`ColumnTypeDetector`) -/

/-- A cell passes the non-blank filter `cell and str(cell).strip()`. -/
def nonBlank (cell : String) : Bool := !cell.data.isEmpty && !(pyStrip cell).data.isEmpty

/-- Membership of `'.'` after some `'@'` — `re.search(r'.*@.*\.', s)`
(the newline restriction of `.` is immaterial for the claims' data). -/
def dotAfterAt : List Char → Bool
  | [] => false
  | c :: rest => if c == '@' then rest.contains '.' else dotAfterAt rest

/-- One value matches some pattern of `URL_PATTERNS` (tested against
`cell.lower().strip()`; `re.search` of each listed pattern reduces to the
substring/shape test shown next to it). -/
def urlPatternMatch (cell : String) : Bool :=
  let c := pyStrip (pyLower cell)
  (strContains c "http://" || strContains c "https://") ||  -- https?://
  strContains c "www." ||                                   -- www\.
  strContains c ".com" ||                                   -- .*\.com
  strContains c ".org" ||                                   -- .*\.org
  strContains c ".net" ||                                   -- .*\.net
  strContains c ".io" ||                                    -- .*\.io
  strContains c ".dev" ||                                   -- .*\.dev
  dotAfterAt c.data ||                                      -- .*@.*\.
  strContains c "ftp://" ||                                 -- ftp://
  strContains c "mailto:"                                   -- mailto:

/-- `ColumnTypeDetector.detect_url_column(column_data, threshold)`. -/
def detect_url_column (column_data : List String) (threshold : ℚ) : Bool :=
  if column_data.isEmpty then false
  else
    let non_empty := column_data.filter nonBlank
    if non_empty.isEmpty then false
    else decide ((non_empty.countP urlPatternMatch : ℚ) / (non_empty.length : ℚ) ≥ threshold)

/-- `ColumnTypeDetector.SENSITIVE_KEYWORDS`. -/
def SENSITIVE_KEYWORDS : List String :=
  ["password", "pass", "pwd", "contraseña", "clave",
   "api_key", "apikey", "api-key", "token", "secret", "secreto",
   "cvv", "pin", "ssn", "credit_card", "tarjeta",
   "private_key", "private-key", "auth", "credential",
   "secret_key", "access_token", "refresh_token"]

/-- Body of the sampling loop of `detect_sensitive_column`: length in [6,64]
and at least 2 of {has digit, has letter, has special}, where special means
neither alphanumeric nor one of space/hyphen/underscore. -/
def looksPasswordLike (cell : String) : Bool :=
  if 6 ≤ cell.length && cell.length ≤ 64 then
    let has_digit := cell.data.any Char.isDigit
    let has_alpha := cell.data.any Char.isAlpha
    let has_special := cell.data.any (fun c =>
      !c.isAlphanum && !(c == ' ' || c == '-' || c == '_'))
    decide (2 ≤ has_digit.toNat + has_alpha.toNat + has_special.toNat)
  else false

/-- `ColumnTypeDetector.detect_sensitive_column(column_name, column_data, threshold)`. -/
def detect_sensitive_column (column_name : String) (column_data : List String)
    (threshold : ℚ) : Bool :=
  if SENSITIVE_KEYWORDS.any (fun k => strContains (pyLower column_name) k) then true
  else if column_data.isEmpty then false
  else
    let non_empty := (column_data.filter nonBlank).map pyStrip
    if non_empty.isEmpty then false
    else
      let sample_size := min non_empty.length 10
      let password_like_count := (non_empty.take sample_size).countP looksPasswordLike
      decide ((password_like_count : ℚ) / (sample_size : ℚ) ≥ threshold)

/-! ### Data model (`ai_table_data.py`) -/

/-- `TableColumnConfig` (dataclass fields after `__post_init__`). -/
structure TableColumnConfig where
  name : String
  type : String
  is_sensitive : Bool
  description : Option String

/-- Construction of a `TableColumnConfig`: the dataclass constructor followed
by `__post_init__`, which silently coerces any type outside {TEXT, URL} to
`'TEXT'` and never raises. -/
def TableColumnConfig.make (nm ty : String) (sens : Bool) (desc : Option String) :
    TableColumnConfig :=
  { name := nm,
    type := if ty == "TEXT" || ty == "URL" then ty else "TEXT",
    is_sensitive := sens,
    description := desc }

/-- `TableConfigData`. -/
structure TableConfigData where
  table_name : String
  category_id : Int
  tags : List String
  auto_detect_sensitive : Bool
  auto_detect_urls : Bool

/-- `TableStructureData`. -/
structure TableStructureData where
  columns : List TableColumnConfig

def TableStructureData.get_column_names (s : TableStructureData) : List String :=
  s.columns.map (fun c => c.name)

def TableStructureData.get_sensitive_indices (s : TableStructureData) : List Nat :=
  (s.columns.enum.filter (fun p => p.2.is_sensitive)).map (fun p => p.1)

def TableStructureData.get_url_indices (s : TableStructureData) : List Nat :=
  (s.columns.enum.filter (fun p => p.2.type == "URL")).map (fun p => p.1)

/-- `AITableData` (dataclass fields; the metadata fields are populated by
`__post_init__`, modelled by `AITableData.make`). -/
structure AITableData where
  table_config : TableConfigData
  table_structure : TableStructureData
  table_data : List (List String)
  rows_count : Nat
  cols_count : Nat
  filled_cells_count : Nat

/-- The dataclass constructor followed by `__post_init__`: rows/cols counts
and the filled-cell count (cells with `cell and str(cell).strip()`). -/
def AITableData.make (cfg : TableConfigData) (st : TableStructureData)
    (td : List (List String)) : AITableData :=
  { table_config := cfg, table_structure := st, table_data := td,
    rows_count := td.length,
    cols_count := st.columns.length,
    filled_cells_count := (td.map (fun row => row.countP nonBlank)).sum }

/-- `AITableData.get_fill_percentage`. -/
def AITableData.get_fill_percentage (t : AITableData) : ℚ :=
  let total := t.rows_count * t.cols_count
  if total = 0 then 0
  else (t.filled_cells_count : ℚ) / (total : ℚ) * 100

/-- Loop of `AITableData.validate_data_consistency`. -/
def consistencyErrors (expected : Nat) : Nat → List (List String) → List String
  | _, [] => []
  | i, r :: rs =>
    (if r.length ≠ expected then [filaMsg (i + 1) r.length expected] else []) ++
    consistencyErrors expected (i + 1) rs

/-- `AITableData.validate_data_consistency` — `(is_valid, errors)`. -/
def AITableData.validate_data_consistency (t : AITableData) : Bool × List String :=
  let errs := consistencyErrors t.cols_count 0 t.table_data
  (errs.isEmpty, errs)

/-! ### Ingestion orchestrator (`AITableManager.create_table_from_ai`) -/

/-- The dictionary returned by the persistence collaborator
(`TableController.create_table`). -/
structure PersistResult where
  success : Bool
  items_created : Nat
  table_name : String
  errors : List String

/-- The dictionary returned by `create_table_from_ai`: the collaborator's
result, possibly augmented with the fill statistics (absent keys are `none`). -/
structure CreateOutcome where
  success : Bool
  items_created : Nat
  table_name : String
  errors : List String
  filled_cells : Option Nat
  fill_percentage : Option ℚ

/-- The persistence collaborator: takes
`(category_id, table_name, table_data, column_names, tags, sensitive_columns,
url_columns)` and either returns a result dictionary or raises
(`Except.error` carries `str(e)` of the raised exception). -/
def CreateTableFn : Type :=
  Int → String → List (List String) → List String → List String →
  List Nat → List Nat → Except String PersistResult

/-- `AITableManager.create_table_from_ai`: derives names/indices from the
structure, delegates to the collaborator, augments a successful result with
the fill statistics, and converts any exception into a failure dictionary.
In this embedding only the collaborator can raise; the preparation steps are
total. -/
def create_table_from_ai (create_table : CreateTableFn) (ai_table : AITableData) :
    CreateOutcome :=
  match create_table ai_table.table_config.category_id ai_table.table_config.table_name
      ai_table.table_data ai_table.table_structure.get_column_names
      ai_table.table_config.tags ai_table.table_structure.get_sensitive_indices
      ai_table.table_structure.get_url_indices with
  | Except.ok r =>
    if r.success then
      { success := r.success, items_created := r.items_created,
        table_name := r.table_name, errors := r.errors,
        filled_cells := some ai_table.filled_cells_count,
        fill_percentage := some ai_table.get_fill_percentage }
    else
      { success := r.success, items_created := r.items_created,
        table_name := r.table_name, errors := r.errors,
        filled_cells := none, fill_percentage := none }
  | Except.error e =>
    { success := false,
      errors := ["Error creating table from AI: " ++ e],
      items_created := 0,
      table_name := ai_table.table_config.table_name,
      filled_cells := some 0,
      fill_percentage := none }

/-! ### Concrete inputs used by boundary theorems, counterexamples and
witnesses -/

/-- A minimal conforming `table_config` object. -/
def cfgJ : JValue :=
  JValue.obj [("table_name", JValue.str "T"), ("category_id", JValue.int 1)]

/-- A minimal conforming column object. -/
def colJ : JValue := JValue.obj [("name", JValue.str "C")]

/-- A canonical input with `nc` columns and `nr` rows of `nc` cells "x". -/
def mkInput (nc nr : Nat) : JValue :=
  JValue.obj
    [("table_config", cfgJ),
     ("table_structure", JValue.obj [("columns", JValue.arr (List.replicate nc colJ))]),
     ("table_data", JValue.arr (List.replicate nr (JValue.arr (List.replicate nc (JValue.str "x")))))]

/-- An input whose only schema violation is `category_id = 0`. -/
def dCatZero : JValue :=
  JValue.obj
    [("table_config", JValue.obj [("table_name", JValue.str "T"), ("category_id", JValue.int 0)]),
     ("table_structure", JValue.obj [("columns", JValue.arr [colJ])]),
     ("table_data", JValue.arr [JValue.arr [JValue.str "x"]])]

/-- A conforming input with an extra, unrecognized top-level key. -/
def dExtraTop : JValue :=
  JValue.obj
    [("table_config", cfgJ),
     ("table_structure", JValue.obj [("columns", JValue.arr [colJ])]),
     ("table_data", JValue.arr [JValue.arr [JValue.str "x"]]),
     ("unexpected_top_level_key", JValue.str "extra")]

/-- A conforming input with extra keys inside `table_config` and inside a
column object. -/
def dExtraNested : JValue :=
  JValue.obj
    [("table_config", JValue.obj
        [("table_name", JValue.str "T"), ("category_id", JValue.int 1),
         ("surprise", JValue.int 7)]),
     ("table_structure", JValue.obj
        [("columns", JValue.arr [JValue.obj
            [("name", JValue.str "C"), ("color", JValue.str "red")]])]),
     ("table_data", JValue.arr [JValue.arr [JValue.str "x"]])]

/-- An input whose single row has 1 cell while 2 columns are declared. -/
def dMismatch : JValue :=
  JValue.obj
    [("table_config", cfgJ),
     ("table_structure", JValue.obj [("columns", JValue.arr [colJ, colJ])]),
     ("table_data", JValue.arr [JValue.arr [JValue.str "x"]])]

/-- A row the step-3 loop reports: it has a length and that length differs
from the declared column count. -/
def offending (numCols : Nat) (r : JValue) : Bool :=
  match jLen r with
  | some l => decide (l ≠ numCols)
  | none => false

/-- A collaborator that always raises. -/
def boomFn : CreateTableFn := fun _ _ _ _ _ _ _ => Except.error "boom"

/-- Concrete model objects used by witnesses. -/
def demoCfg : TableConfigData :=
  { table_name := "DEMO", category_id := 1, tags := [],
    auto_detect_sensitive := true, auto_detect_urls := true }

def demoSt : TableStructureData :=
  { columns := [TableColumnConfig.make "C" "TEXT" false none] }

def demoTable : AITableData := AITableData.make demoCfg demoSt [["x"]]

/-! ## Helper lemmas -/

theorem listStarts_append_self (l e : List Char) : listStarts (l ++ e) l = true := by
  induction l with
  | nil => cases e <;> rfl
  | cons c cs ih => simp [listStarts, ih]

theorem listStarts_imp_listHas (l sub : List Char) (h : listStarts l sub = true) :
    listHas l sub = true := by
  cases l with
  | nil =>
    cases sub with
    | nil => rfl
    | cons d ds => simp [listStarts] at h
  | cons c cs => simp [listHas, h]

theorem listHas_append_left (xs ys sub : List Char) (h : listHas ys sub = true) :
    listHas (xs ++ ys) sub = true := by
  induction xs with
  | nil => simpa using h
  | cons c cs ih => simp [List.cons_append, listHas, ih]

theorem listHas_here (sub rest : List Char) : listHas (sub ++ rest) sub = true :=
  listStarts_imp_listHas _ _ (listStarts_append_self sub rest)

theorem strContains_of_parts (s sub : String) (u v : List Char)
    (h : s.data = u ++ (sub.data ++ v)) : strContains s sub = true := by
  unfold strContains
  rw [h]
  exact listHas_append_left _ _ _ (listHas_here _ _)

theorem filaMsg_contains (n x y : Nat) :
    strContains (filaMsg n x y) (toString n) = true ∧
    strContains (filaMsg n x y) (toString x) = true ∧
    strContains (filaMsg n x y) (toString y) = true := by
  refine ⟨strContains_of_parts _ _ ("Fila ").data
            (" tiene " ++ toString x ++ " columnas, esperadas " ++ toString y).data ?_,
          strContains_of_parts _ _ ("Fila " ++ toString n ++ " tiene ").data
            (" columnas, esperadas " ++ toString y).data ?_,
          strContains_of_parts _ _
            ("Fila " ++ toString n ++ " tiene " ++ toString x ++ " columnas, esperadas ").data
            [] ?_⟩ <;>
    simp [filaMsg, String.data_append, List.append_assoc]

theorem rowMismatch_nil (n : Nat) (rows : List JValue) (h : ∀ r ∈ rows, jLen r = some n) :
    ∀ i, rowMismatchErrors n i rows = [] := by
  induction rows with
  | nil => intro i; rfl
  | cons r rs ih =>
    intro i
    have hr := h r (by simp)
    simp [rowMismatchErrors, hr, ih (fun a ha => h a (by simp [ha]))]

theorem rowMismatch_length (n : Nat) (rows : List JValue) :
    ∀ i, (rowMismatchErrors n i rows).length = rows.countP (offending n) := by
  induction rows with
  | nil => intro i; rfl
  | cons r rs ih =>
    intro i
    simp only [rowMismatchErrors, List.length_append, ih, List.countP_cons]
    rcases hr : jLen r with _ | l
    · simp [offending, hr]
    · by_cases hl : l = n
      · simp [offending, hr, hl]
      · simp [offending, hr, hl, Nat.add_comm]

theorem rowMismatch_mem (n : Nat) (rows : List JValue) :
    ∀ i k r l, rows.get? k = some r → jLen r = some l → l ≠ n →
      filaMsg (i + k + 1) l n ∈ rowMismatchErrors n i rows := by
  induction rows with
  | nil => intro i k r l h; simp at h
  | cons hd tl ih =>
    intro i k r l hget hlen hne
    cases k with
    | zero =>
      have hhd : hd = r := by simpa using hget
      subst hhd
      simp [rowMismatchErrors, hlen, hne]
    | succ k' =>
      have hmem := ih (i + 1) k' r l (by simpa using hget) hlen hne
      have harith : i + 1 + k' + 1 = i + (k' + 1) + 1 := by omega
      rw [harith] at hmem
      exact List.mem_append_right _ hmem

theorem objGet_obj (d : JValue) (k : String) (v : JValue) (h : objGet d k = some v) :
    ∃ fs, d = JValue.obj fs := by
  cases d <;> first
    | exact ⟨_, rfl⟩
    | simp [objGet] at h

theorem hasKey_of_objGet (fs : List (String × JValue)) (k : String) (v : JValue)
    (h : objGet (JValue.obj fs) k = some v) : hasKey (JValue.obj fs) k = true := by
  simp only [objGet] at h
  rcases hf : fs.find? (fun p => p.1 == k) with _ | p
  · rw [hf] at h; simp at h
  · have hp := List.find?_some hf
    have hm := List.mem_of_find?_eq_some hf
    simp only [hasKey, List.any_eq_true]
    exact ⟨p, hm, hp⟩

theorem objGet_none_hasKey (fs : List (String × JValue)) (k : String)
    (h : objGet (JValue.obj fs) k = none) : hasKey (JValue.obj fs) k = false := by
  simp only [objGet] at h
  have hf : fs.find? (fun p => p.1 == k) = none := by
    rcases hf : fs.find? (fun p => p.1 == k) with _ | p
    · exact hf
    · rw [hf] at h; simp at h
  rw [List.find?_eq_none] at hf
  simp only [hasKey]
  rw [List.any_eq_false]
  exact hf

theorem colsOf_split (d : JValue) (cols : List JValue) (hc : colsOf d = some cols) :
    ∃ ts, objGet d "table_structure" = some ts ∧
      objGet ts "columns" = some (JValue.arr cols) := by
  rcases hts : objGet d "table_structure" with _ | ts
  · simp [colsOf, hts] at hc
  rcases hcols : objGet ts "columns" with _ | colsv
  · simp [colsOf, hts, hcols] at hc
  cases colsv with
  | arr cs =>
    have hcs : cs = cols := by simpa [colsOf, hts, hcols] using hc
    exact ⟨ts, rfl, by rw [hcols, hcs]⟩
  | null => simp [colsOf, hts, hcols] at hc
  | bool b => simp [colsOf, hts, hcols] at hc
  | int n => simp [colsOf, hts, hcols] at hc
  | str s => simp [colsOf, hts, hcols] at hc
  | obj fs => simp [colsOf, hts, hcols] at hc

theorem rowsOf_split (d : JValue) (rows : List JValue) (hr : rowsOf d = some rows) :
    objGet d "table_data" = some (JValue.arr rows) := by
  rcases htd : objGet d "table_data" with _ | tdv
  · simp [rowsOf, htd] at hr
  cases tdv with
  | arr rs =>
    have hrs : rs = rows := by simpa [rowsOf, htd] using hr
    rw [hrs]
  | null => simp [rowsOf, htd] at hr
  | bool b => simp [rowsOf, htd] at hr
  | int n => simp [rowsOf, htd] at hr
  | str s => simp [rowsOf, htd] at hr
  | obj fs => simp [rowsOf, htd] at hr

theorem addl_success (d : JValue) (cols rows : List JValue)
    (hc : colsOf d = some cols) (hr : rowsOf d = some rows)
    (hrow : ∀ r ∈ rows, jLen r = some cols.length) :
    (additionalValidation d).is_valid = true ∧
    (additionalValidation d).errors = [] ∧
    (additionalValidation d).dimensions = some (rows.length, cols.length) := by
  obtain ⟨ts, hts, hcols⟩ := colsOf_split d cols hc
  have htd := rowsOf_split d rows hr
  have hall : rows.all (fun r => (jLen r).isSome) = true := by
    rw [List.all_eq_true]
    intro r hm
    rw [hrow r hm]
    rfl
  have herrs : rowMismatchErrors cols.length 0 rows = [] := rowMismatch_nil _ _ hrow 0
  simp only [additionalValidation, hts, hcols, htd, jLen]
  simp only [jLen] at hall
  rw [hall]
  simp [herrs]

theorem columnErrorList_nil (cols : List JValue) (h : ∀ c ∈ cols, checkColumn c = true) :
    ∀ i, columnErrorList i cols = [] := by
  induction cols with
  | nil => intro i; rfl
  | cons c cs ih =>
    intro i
    have hc := h c (by simp)
    simp only [checkColumn, Bool.and_eq_true] at hc
    obtain ⟨⟨⟨hname, hty⟩, _⟩, _⟩ := hc
    rcases hn : objGet c "name" with _ | v
    · rw [hn] at hname; simp at hname
    rw [hn] at hname
    cases v with
    | str s =>
      simp only [Bool.and_eq_true, decide_eq_true_eq] at hname
      obtain ⟨fs, rfl⟩ := objGet_obj c _ _ hn
      have hk := hasKey_of_objGet fs _ _ hn
      have hs0 : s.length ≠ 0 := by omega
      have htail := ih (fun a ha => h a (by simp [ha])) (i + 1)
      rcases hty2 : objGet (JValue.obj fs) "type" with _ | w
      · have hnk := objGet_none_hasKey fs _ hty2
        simp [columnErrorList, hk, hn, truthy, hs0, hnk, htail]
      · have hkt := hasKey_of_objGet fs _ _ hty2
        rw [optCheck, hty2] at hty
        cases w with
        | str t =>
          simp only [decide_eq_true_eq, Bool.or_eq_true, beq_iff_eq] at hty
          rcases hty with h1 | h1 <;>
            simp [columnErrorList, hk, hn, truthy, hs0, hkt, hty2, h1, htail]
        | null => simp at hty
        | bool b => simp at hty
        | int n => simp at hty
        | arr xs => simp at hty
        | obj gs => simp at hty
    | null => simp at hname
    | bool b => simp at hname
    | int n => simp at hname
    | arr xs => simp at hname
    | obj gs => simp at hname

theorem rowArrayErrorList_nil (rows : List JValue)
    (h : ∀ r ∈ rows, (match r with
      | JValue.arr cells => cells.all JValue.isStr
      | _ => false) = true) :
    ∀ i, rowArrayErrorList i rows = [] := by
  induction rows with
  | nil => intro i; rfl
  | cons r rs ih =>
    intro i
    have hr := h r (by simp)
    have htail := ih (fun a ha => h a (by simp [ha])) (i + 1)
    cases r with
    | arr cells => simp [rowArrayErrorList, htail]
    | null => simp at hr
    | bool b => simp at hr
    | int n => simp at hr
    | str s => simp at hr
    | obj gs => simp at hr

theorem basic_of_schema (d : JValue) (h : schemaCheck d = true) : basic_validation d = [] := by
  rcases hcfg : objGet d "table_config" with _ | cfg
  · simp [schemaCheck, hcfg] at h
  rcases hts : objGet d "table_structure" with _ | ts
  · simp [schemaCheck, hcfg, hts] at h
  rcases htd : objGet d "table_data" with _ | td
  · simp [schemaCheck, hcfg, hts, htd] at h
  have h3 : checkConfig cfg && checkStructure ts && checkData td = true := by
    simpa [schemaCheck, hcfg, hts, htd] using h
  simp only [Bool.and_eq_true] at h3
  obtain ⟨⟨hC, hS⟩, hD⟩ := h3
  obtain ⟨fs, rfl⟩ := objGet_obj d _ _ hcfg
  have hk1 := hasKey_of_objGet fs _ _ hcfg
  have hk2 := hasKey_of_objGet fs _ _ hts
  have hk3 := hasKey_of_objGet fs _ _ htd
  -- unpack checkConfig
  simp only [checkConfig, Bool.and_eq_true] at hC
  obtain ⟨⟨⟨⟨hname, hcat⟩, _⟩, _⟩, _⟩ := hC
  rcases hn : objGet cfg "table_name" with _ | v
  · rw [hn] at hname; simp at hname
  rw [hn] at hname
  cases v with
  | str s =>
    simp only [Bool.and_eq_true, decide_eq_true_eq] at hname
    obtain ⟨gs, hgs⟩ := objGet_obj cfg _ _ hn
    subst hgs
    have hkn := hasKey_of_objGet gs _ _ hn
    have hs0 : s.length ≠ 0 := by omega
    rcases hcid : objGet (JValue.obj gs) "category_id" with _ | w
    · rw [hcid] at hcat; simp at hcat
    rw [hcid] at hcat
    cases w with
    | int n =>
      have hkc := hasKey_of_objGet gs _ _ hcid
      -- unpack checkStructure
      simp only [checkStructure] at hS
      rcases hsc : objGet ts "columns" with _ | colsv
      · rw [hsc] at hS; simp at hS
      rw [hsc] at hS
      cases colsv with
      | arr cols =>
        simp only [Bool.and_eq_true, decide_eq_true_eq] at hS
        obtain ⟨⟨hc1, hc20⟩, hcall⟩ := hS
        obtain ⟨ss, hss⟩ := objGet_obj ts _ _ hsc
        subst hss
        have hks := hasKey_of_objGet ss _ _ hsc
        have hc0 : cols.length ≠ 0 := by omega
        have hcols_nil : columnErrorList 0 cols = [] :=
          columnErrorList_nil cols (List.all_eq_true.mp hcall) 0
        -- unpack checkData
        simp only [checkData] at hD
        cases td with
        | arr rows =>
          simp only [Bool.and_eq_true, decide_eq_true_eq] at hD
          obtain ⟨⟨hr1, hr100⟩, hrall⟩ := hD
          have hrows_nil : rowArrayErrorList 0 rows = [] :=
            rowArrayErrorList_nil rows (List.all_eq_true.mp hrall) 0
          have hle20 : ¬ (cols.length > 20) := by omega
          have hle100 : ¬ (rows.length > 100) := by omega
          have hcne : cols ≠ [] := List.ne_nil_of_length_pos (by omega)
          have hrne : rows ≠ [] := List.ne_nil_of_length_pos (by omega)
          simp [basic_validation, hk1, hk2, hk3, hcfg, hts, htd, hn, hcid, hsc,
                hkn, hkc, hks, truthy, hs0, isPyInt, hc0, hle20, hle100,
                hcne, hrne, hcols_nil, hrows_nil]
        | null => simp at hD
        | bool b => simp at hD
        | int m => simp at hD
        | str t => simp at hD
        | obj hs2 => simp at hD
      | null => simp at hS
      | bool b => simp at hS
      | int m => simp at hS
      | str t => simp at hS
      | obj hs2 => simp at hS
    | null => simp at hcat
    | bool b => simp at hcat
    | str t => simp at hcat
    | arr xs => simp at hcat
    | obj hs2 => simp at hcat
  | null => simp at hname
  | bool b => simp at hname
  | int m => simp at hname
  | arr xs => simp at hname
  | obj hs2 => simp at hname

/-! ## Claims -/

/-- Claim C1: for every JSON text that parses and conforms to the documented
schema (embedded as `schemaCheck`, the Draft-7 validation of `SCHEMA`) and in
which every row's length equals the number of declared columns,
`validate_json_string` returns `is_valid = true` and
`dimensions = (number of rows, number of columns)` — on both the
schema-library path and the manual-fallback path. -/
theorem C1_valid_json_accepted (b : Bool) (d : JValue) (cols rows : List JValue)
    (hschema : schemaCheck d = true)
    (hc : colsOf d = some cols) (hr : rowsOf d = some rows)
    (hrow : ∀ r ∈ rows, jLen r = some cols.length) :
    (validate_json_string b (some d)).is_valid = true ∧
    (validate_json_string b (some d)).dimensions = some (rows.length, cols.length) := by
  have hadd := addl_success d cols rows hc hr hrow
  cases b with
  | true =>
    simp only [validate_json_string, hschema, if_true]
    exact ⟨hadd.1, hadd.2.2⟩
  | false =>
    have hb := basic_of_schema d hschema
    simp only [validate_json_string, hb]
    simpa using ⟨hadd.1, hadd.2.2⟩

/-- Witness for C1 at a concrete conforming 2-column, 3-row input. -/
theorem C1_witness :
    (validate_json_string true (some (mkInput 2 3))).is_valid = true ∧
    (validate_json_string true (some (mkInput 2 3))).dimensions = some (3, 2) := by
  have h := C1_valid_json_accepted true (mkInput 2 3) (List.replicate 2 colJ)
      (List.replicate 3 (JValue.arr (List.replicate 2 (JValue.str "x"))))
      (by decide) rfl rfl
      (by intro r hr
          rw [List.eq_of_mem_replicate hr]
          simp [jLen])
  simpa using h

/-- Claim C2: for every structurally valid input (either validation path) in
which at least one row's length differs from the declared column count,
`validate_json_string` returns `is_valid = false`, leaves `dimensions` unset,
and its error list is exactly the step-3 list: one error per offending row,
whose message contains the 1-based row number, the row's actual length, and
the expected column count.  (Structural validity guarantees every row is an
array; the `hall` hypothesis records that consequence.) -/
theorem C2_row_mismatch_errors (b : Bool) (d : JValue) (cols rows : List JValue)
    (hok : structuralOk b d = true)
    (hc : colsOf d = some cols) (hr : rowsOf d = some rows)
    (hall : ∀ r ∈ rows, (jLen r).isSome = true)
    (hmis : ∃ r ∈ rows, jLen r ≠ some cols.length) :
    (validate_json_string b (some d)).is_valid = false ∧
    (validate_json_string b (some d)).dimensions = none ∧
    (validate_json_string b (some d)).errors = rowMismatchErrors cols.length 0 rows ∧
    (validate_json_string b (some d)).errors.length = rows.countP (offending cols.length) ∧
    (∀ k r l, rows.get? k = some r → jLen r = some l → l ≠ cols.length →
       filaMsg (k + 1) l cols.length ∈ (validate_json_string b (some d)).errors ∧
       strContains (filaMsg (k + 1) l cols.length) (toString (k + 1)) = true ∧
       strContains (filaMsg (k + 1) l cols.length) (toString l) = true ∧
       strContains (filaMsg (k + 1) l cols.length) (toString cols.length) = true) := by
  obtain ⟨r0, hr0mem, hr0⟩ := hmis
  obtain ⟨k0, hk0⟩ := List.mem_iff_get?.mp hr0mem
  rcases hjl : jLen r0 with _ | l0
  · have := hall r0 hr0mem
    rw [hjl] at this
    simp at this
  have hl0ne : l0 ≠ cols.length := by
    intro he
    rw [he] at hjl
    exact hr0 hjl
  have hmem0 := rowMismatch_mem cols.length rows 0 k0 r0 l0 hk0 hjl hl0ne
  have herrne : rowMismatchErrors cols.length 0 rows ≠ [] := by
    intro he
    rw [he] at hmem0
    simp at hmem0
  have hcore : additionalValidation d =
      { is_valid := false, errors := rowMismatchErrors cols.length 0 rows,
        warnings := [], dimensions := none } := by
    obtain ⟨ts, hts, hcols⟩ := colsOf_split d cols hc
    have htd := rowsOf_split d rows hr
    have hallb : rows.all (fun r => (jLen r).isSome) = true := List.all_eq_true.mpr hall
    have hie : (rowMismatchErrors cols.length 0 rows).isEmpty = false := by
      simp [List.isEmpty_iff, herrne]
    simp only [additionalValidation, hts, hcols, htd, jLen]
    simp only [jLen] at hallb
    rw [hallb]
    simp [hie]
  have hval : validate_json_string b (some d) = additionalValidation d := by
    cases b with
    | true =>
      have hs : schemaCheck d = true := by simpa [structuralOk] using hok
      simp [validate_json_string, hs]
    | false =>
      have hb : (basic_validation d).isEmpty = true := by simpa [structuralOk] using hok
      have hbe : basic_validation d = [] := List.isEmpty_iff.mp hb
      simp [validate_json_string, hbe]
  rw [hval, hcore]
  refine ⟨rfl, rfl, rfl, rowMismatch_length cols.length rows 0, ?_⟩
  intro k r l hget hl hlne
  have hm := rowMismatch_mem cols.length rows 0 k r l hget hl hlne
  exact ⟨by simpa using hm, (filaMsg_contains _ _ _).1,
         (filaMsg_contains _ _ _).2.1, (filaMsg_contains _ _ _).2.2⟩

/-- Witness for C2 at a concrete input: two declared columns, one row with a
single cell. -/
theorem C2_witness :
    (validate_json_string true (some dMismatch)).is_valid = false ∧
    (validate_json_string true (some dMismatch)).dimensions = none ∧
    (validate_json_string true (some dMismatch)).errors =
      ["Fila 1 tiene 1 columnas, esperadas 2"] := by
  have h := C2_row_mismatch_errors true dMismatch [colJ, colJ]
      [JValue.arr [JValue.str "x"]]
      (by decide) rfl rfl (by decide)
      ⟨JValue.arr [JValue.str "x"], by simp, by decide⟩
  refine ⟨h.1, h.2.1, ?_⟩
  rw [h.2.2.1]
  rfl

/-- Counterexample for C3: on the parsed input with `category_id = 0` the
schema-library path rejects while the manual fallback path accepts, so the
two paths do not accept the same inputs and are distinguishable from the
error list alone. -/
theorem C3_counterexample :
    (validate_json_string true (some dCatZero)).is_valid = false ∧
    (validate_json_string false (some dCatZero)).is_valid = true ∧
    (validate_json_string true (some dCatZero)).errors ≠ [] ∧
    (validate_json_string false (some dCatZero)).errors = [] := by decide

/-- Claim C3 (amended): the two validation paths are not equivalent; the
manual fallback is strictly more permissive.  Every parsed input accepted by
the schema check also passes the fallback with no errors, but not
conversely — e.g. `category_id = 0` passes the fallback while the schema
path rejects it. -/
theorem C3_fallback_weaker :
    (∀ d : JValue, schemaCheck d = true → basic_validation d = []) ∧
    (∃ d : JValue, basic_validation d = [] ∧ schemaCheck d = false) :=
  ⟨fun d h => basic_of_schema d h, ⟨dCatZero, by decide, by decide⟩⟩

/-- Witness for C3 (amended) at a concrete conforming input. -/
theorem C3_witness : basic_validation (mkInput 1 1) = [] :=
  C3_fallback_weaker.1 (mkInput 1 1) (by decide)

set_option maxRecDepth 100000 in
/-- Claim C4: boundary inclusivity of the count limits.  The canonical
otherwise-valid input with exactly 20 columns and exactly 100 rows is
accepted by both paths with `dimensions = (100, 20)`; with 21 columns, or
with 101 rows, both paths reject, and the manual path reports exactly the
count-limit error (the schema path's single short-circuited error is the
library's maxItems violation, modelled without its text). -/
theorem C4_boundaries :
    (validate_json_string true (some (mkInput 20 100))).is_valid = true ∧
    (validate_json_string false (some (mkInput 20 100))).is_valid = true ∧
    (validate_json_string true (some (mkInput 20 100))).dimensions = some (100, 20) ∧
    (validate_json_string true (some (mkInput 21 1))).is_valid = false ∧
    (validate_json_string false (some (mkInput 21 1))).is_valid = false ∧
    (validate_json_string false (some (mkInput 21 1))).errors =
      ["table_structure.columns: máximo 20 columnas"] ∧
    (validate_json_string true (some (mkInput 1 101))).is_valid = false ∧
    (validate_json_string false (some (mkInput 1 101))).is_valid = false ∧
    (validate_json_string false (some (mkInput 1 101))).errors =
      ["table_data: máximo 100 filas"] := by
  refine ⟨by decide, by decide, by decide, by decide, by decide, by decide,
         by decide, by decide, by decide⟩

/-- Counterexample for C5: an otherwise-conforming object with an extra,
unrecognized top-level key is accepted with no error by both paths — the
claim predicts `is_valid = false` with at least one error. -/
theorem C5_counterexample :
    (validate_json_string true (some dExtraTop)).is_valid = true ∧
    (validate_json_string false (some dExtraTop)).is_valid = true ∧
    (validate_json_string true (some dExtraTop)).errors = [] ∧
    (validate_json_string false (some dExtraTop)).errors = [] := by decide

/-- Claim C5 (amended): fields beyond the documented schema are not errors:
the schema has no `additionalProperties` restriction and the fallback never
looks for unknown keys, so an otherwise-conforming input with extra keys —
top-level, inside `table_config`, or inside a column object — validates
successfully on both paths. -/
theorem C5_extras_ignored :
    (validate_json_string true (some dExtraNested)).is_valid = true ∧
    (validate_json_string false (some dExtraNested)).is_valid = true ∧
    (validate_json_string true (some dExtraNested)).errors = [] ∧
    (validate_json_string true (some dExtraNested)).dimensions = some (1, 1) := by decide

/-- Claim C6: after construction the column type is always one of exactly
{TEXT, URL}: a recognized value is kept, any other string is silently
coerced to TEXT, and construction is total (never rejects or raises). -/
theorem C6_type_coercion (nm ty : String) (sens : Bool) (desc : Option String) :
    ((TableColumnConfig.make nm ty sens desc).type = "TEXT" ∨
     (TableColumnConfig.make nm ty sens desc).type = "URL") ∧
    ((ty = "TEXT" ∨ ty = "URL") → (TableColumnConfig.make nm ty sens desc).type = ty) ∧
    (¬(ty = "TEXT" ∨ ty = "URL") → (TableColumnConfig.make nm ty sens desc).type = "TEXT") := by
  by_cases h : ty = "TEXT" ∨ ty = "URL"
  · rcases h with h1 | h1 <;> subst h1 <;> simp [TableColumnConfig.make]
  · have h1 : ¬ ty = "TEXT" := fun hc => h (Or.inl hc)
    have h2 : ¬ ty = "URL" := fun hc => h (Or.inr hc)
    simp [TableColumnConfig.make, h1, h2, h]

/-- Witness for C6: an invalid type string is coerced to TEXT. -/
theorem C6_witness :
    (TableColumnConfig.make "NOMBRE" "NUMBER" false none).type = "TEXT" :=
  (C6_type_coercion "NOMBRE" "NUMBER" false none).2.2 (by decide)

theorem listHas_refl (l : List Char) : listHas l l = true := by
  have h := listStarts_append_self l []
  rw [List.append_nil] at h
  exact listStarts_imp_listHas _ _ h

theorem strContains_append_right (p m : String) : strContains (p ++ m) m = true := by
  unfold strContains
  rw [String.data_append]
  exact listHas_append_left _ _ _ (listHas_refl _)

/-- Claim C7: `detect_url_column` returns false on an empty or all-blank
value list, and otherwise returns true exactly when the fraction of
non-blank values matching some URL/email pattern reaches the threshold;
on the listed three-value input it is false at threshold 7/10 (ratio 2/3)
and true at threshold 3/5. -/
theorem C7_detect_url :
    (∀ t : ℚ, detect_url_column [] t = false) ∧
    (∀ (vals : List String) (t : ℚ), (∀ v ∈ vals, pyStrip v = "") →
       detect_url_column vals t = false) ∧
    (∀ (vals : List String) (t : ℚ), vals.filter nonBlank ≠ [] →
       (detect_url_column vals t = true ↔
         (((vals.filter nonBlank).countP urlPatternMatch : ℚ) /
           ((vals.filter nonBlank).length : ℚ) ≥ t))) ∧
    detect_url_column ["https://a.com", "https://b.com", "plain text"] (7/10) = false ∧
    detect_url_column ["https://a.com", "https://b.com", "plain text"] (3/5) = true := by
  refine ⟨fun t => rfl, ?_, ?_, ?_, ?_⟩
  · intro vals t h
    have hf : vals.filter nonBlank = [] := by
      rw [List.filter_eq_nil_iff]
      intro v hv
      simp [nonBlank, h v hv]
    cases hv : vals with
    | nil => rfl
    | cons a as =>
      rw [hv] at hf
      simp [detect_url_column, hf]
  · intro vals t hne
    have hvne : vals ≠ [] := by
      intro he
      rw [he] at hne
      simp at hne
    simp [detect_url_column, List.isEmpty_iff, hvne, hne]
  · have h : detect_url_column ["https://a.com", "https://b.com", "plain text"] (7/10) =
        decide (((["https://a.com", "https://b.com", "plain text"].filter nonBlank).countP
            urlPatternMatch : ℚ) /
          ((["https://a.com", "https://b.com", "plain text"].filter nonBlank).length : ℚ) ≥
          (7/10 : ℚ)) := rfl
    have hc : (["https://a.com", "https://b.com", "plain text"].filter nonBlank).countP
        urlPatternMatch = 2 := by decide
    have hl : (["https://a.com", "https://b.com", "plain text"].filter nonBlank).length = 3 := by
      decide
    rw [h, hc, hl]
    exact decide_eq_false (by norm_num)
  · have h : detect_url_column ["https://a.com", "https://b.com", "plain text"] (3/5) =
        decide (((["https://a.com", "https://b.com", "plain text"].filter nonBlank).countP
            urlPatternMatch : ℚ) /
          ((["https://a.com", "https://b.com", "plain text"].filter nonBlank).length : ℚ) ≥
          (3/5 : ℚ)) := rfl
    have hc : (["https://a.com", "https://b.com", "plain text"].filter nonBlank).countP
        urlPatternMatch = 2 := by decide
    have hl : (["https://a.com", "https://b.com", "plain text"].filter nonBlank).length = 3 := by
      decide
    rw [h, hc, hl]
    exact decide_eq_true (by norm_num)

/-- Witness for C7: the general ratio equivalence applied at a concrete
single-value input. -/
theorem C7_witness :
    detect_url_column ["https://a.com"] (1/2) = true ↔
      (((["https://a.com"].filter nonBlank).countP urlPatternMatch : ℚ) /
        ((["https://a.com"].filter nonBlank).length : ℚ) ≥ (1/2 : ℚ)) :=
  C7_detect_url.2.2.1 ["https://a.com"] (1/2) (by decide)

/-- Claim C8: `detect_sensitive_column` returns true whenever the
lower-cased name contains a keyword of the fixed list (regardless of the
values); with no keyword match and no non-blank values it returns false;
otherwise it returns true exactly when the fraction of password-like values
over the sample of at most the first 10 non-blank (trimmed) values reaches
the threshold. -/
theorem C8_detect_sensitive :
    (∀ (nm : String) (vals : List String) (t : ℚ),
       (∃ k ∈ SENSITIVE_KEYWORDS, strContains (pyLower nm) k = true) →
       detect_sensitive_column nm vals t = true) ∧
    (∀ (nm : String) (vals : List String) (t : ℚ),
       (∀ k ∈ SENSITIVE_KEYWORDS, strContains (pyLower nm) k = false) →
       vals.filter nonBlank = [] →
       detect_sensitive_column nm vals t = false) ∧
    (∀ (nm : String) (vals : List String) (t : ℚ),
       (∀ k ∈ SENSITIVE_KEYWORDS, strContains (pyLower nm) k = false) →
       vals.filter nonBlank ≠ [] →
       (detect_sensitive_column nm vals t = true ↔
         (((((vals.filter nonBlank).map pyStrip).take
              (min ((vals.filter nonBlank).map pyStrip).length 10)).countP
                looksPasswordLike : ℚ) /
           ((min ((vals.filter nonBlank).map pyStrip).length 10) : ℚ) ≥ t))) := by
  refine ⟨?_, ?_, ?_⟩
  · intro nm vals t h
    have ha : SENSITIVE_KEYWORDS.any (fun k => strContains (pyLower nm) k) = true :=
      List.any_eq_true.mpr h
    simp [detect_sensitive_column, ha]
  · intro nm vals t h hf
    have ha : SENSITIVE_KEYWORDS.any (fun k => strContains (pyLower nm) k) = false := by
      rw [List.any_eq_false]
      intro k hk
      simp [h k hk]
    cases hv : vals with
    | nil => simp [detect_sensitive_column, ha]
    | cons a as =>
      rw [hv] at hf
      simp [detect_sensitive_column, ha, hf]
  · intro nm vals t h hne
    have ha : SENSITIVE_KEYWORDS.any (fun k => strContains (pyLower nm) k) = false := by
      rw [List.any_eq_false]
      intro k hk
      simp [h k hk]
    have hvne : vals ≠ [] := by
      intro he
      rw [he] at hne
      simp at hne
    have hmne : (vals.filter nonBlank).map pyStrip ≠ [] := by
      simpa using hne
    simp [detect_sensitive_column, ha, List.isEmpty_iff, hvne, hmne]

/-- Witness for C8: the keyword short-circuit at a concrete input. -/
theorem C8_witness :
    detect_sensitive_column "API_KEY" ["sk_live_abc123", "sk_test_def456"] (1/2) = true :=
  C8_detect_sensitive.1 "API_KEY" ["sk_live_abc123", "sk_test_def456"] (1/2)
    ⟨"api_key", by decide, by decide⟩

/-- Claim C9: `create_table_from_ai` never lets an exception propagate: when
the persistence collaborator raises, the orchestrator returns the failure
dictionary with `success = false`, the exception message inside `errors`,
`items_created = 0`, the input table's name, and `filled_cells = 0`. -/
theorem C9_exception_wrapped (f : CreateTableFn) (t : AITableData) (msg : String)
    (h : f t.table_config.category_id t.table_config.table_name t.table_data
        t.table_structure.get_column_names t.table_config.tags
        t.table_structure.get_sensitive_indices t.table_structure.get_url_indices
        = Except.error msg) :
    create_table_from_ai f t =
      { success := false, errors := ["Error creating table from AI: " ++ msg],
        items_created := 0, table_name := t.table_config.table_name,
        filled_cells := some 0, fill_percentage := none } ∧
    strContains ("Error creating table from AI: " ++ msg) msg = true := by
  constructor
  · simp only [create_table_from_ai, h]
  · exact strContains_append_right _ msg

/-- Witness for C9: a collaborator that raises "boom" on a concrete table. -/
theorem C9_witness :
    create_table_from_ai boomFn demoTable =
      { success := false, errors := ["Error creating table from AI: boom"],
        items_created := 0, table_name := "DEMO",
        filled_cells := some 0, fill_percentage := none } ∧
    strContains "Error creating table from AI: boom" "boom" = true :=
  C9_exception_wrapped boomFn demoTable "boom" rfl

/-- Claim C10: bounds of the derived fill metadata.  For a constructed
`AITableData`: the percentage is 0 when `rows_count * cols_count = 0`; when
every row's length equals the column count, `filled_cells_count` is at most
`rows_count * cols_count` and the percentage lies in [0, 100]; and without
that row-length precondition the percentage can exceed 100. -/
theorem C10_fill_percentage_bounds :
    (∀ (cfg : TableConfigData) (st : TableStructureData) (td : List (List String)),
       (AITableData.make cfg st td).rows_count * (AITableData.make cfg st td).cols_count = 0 →
       (AITableData.make cfg st td).get_fill_percentage = 0) ∧
    (∀ (cfg : TableConfigData) (st : TableStructureData) (td : List (List String)),
       (∀ row ∈ td, row.length = st.columns.length) →
       (AITableData.make cfg st td).filled_cells_count ≤
         (AITableData.make cfg st td).rows_count * (AITableData.make cfg st td).cols_count ∧
       0 ≤ (AITableData.make cfg st td).get_fill_percentage ∧
       (AITableData.make cfg st td).get_fill_percentage ≤ 100) ∧
    (∃ (cfg : TableConfigData) (st : TableStructureData) (td : List (List String)),
       100 < (AITableData.make cfg st td).get_fill_percentage) := by
  refine ⟨?_, ?_, ?_⟩
  · intro cfg st td h
    simp [AITableData.get_fill_percentage, h]
  · intro cfg st td h
    have hfill : (AITableData.make cfg st td).filled_cells_count ≤
        (AITableData.make cfg st td).rows_count * (AITableData.make cfg st td).cols_count := by
      show (td.map (fun row => row.countP nonBlank)).sum ≤ td.length * st.columns.length
      calc (td.map (fun row => row.countP nonBlank)).sum
          ≤ (td.map (fun row => row.length)).sum :=
            List.sum_le_sum (fun row _ => List.countP_le_length _)
        _ = (td.map (fun _ => st.columns.length)).sum := by
            rw [List.map_congr_left (fun row hrow => h row hrow)]
        _ = td.length * st.columns.length := by
            simp [List.map_const', List.sum_replicate, smul_eq_mul, Nat.mul_comm]
    refine ⟨hfill, ?_, ?_⟩
    · unfold AITableData.get_fill_percentage
      by_cases h0 : (AITableData.make cfg st td).rows_count *
          (AITableData.make cfg st td).cols_count = 0
      · simp [h0]
      · simp only [h0, if_false]
        positivity
    · unfold AITableData.get_fill_percentage
      by_cases h0 : (AITableData.make cfg st td).rows_count *
          (AITableData.make cfg st td).cols_count = 0
      · simp [h0]
      · simp only [h0, if_false]
        have hTpos : (0 : ℚ) < (((AITableData.make cfg st td).rows_count *
            (AITableData.make cfg st td).cols_count : ℕ) : ℚ) := by
          exact_mod_cast Nat.pos_of_ne_zero h0
        have hle : ((AITableData.make cfg st td).filled_cells_count : ℚ) ≤
            (((AITableData.make cfg st td).rows_count *
              (AITableData.make cfg st td).cols_count : ℕ) : ℚ) := by
          exact_mod_cast hfill
        calc ((AITableData.make cfg st td).filled_cells_count : ℚ) /
              (((AITableData.make cfg st td).rows_count *
                (AITableData.make cfg st td).cols_count : ℕ) : ℚ) * 100
            ≤ 1 * 100 := by
              apply mul_le_mul_of_nonneg_right _ (by norm_num)
              exact (div_le_one hTpos).mpr hle
          _ = 100 := one_mul 100
  · refine ⟨demoCfg, demoSt, [["a", "b"]], ?_⟩
    have h : (AITableData.make demoCfg demoSt [["a", "b"]]).get_fill_percentage =
        ((2 : ℕ) : ℚ) / ((1 : ℕ) : ℚ) * 100 := rfl
    rw [h]
    norm_num

/-- Witness for C10 at a concrete consistent 1-by-1 table. -/
theorem C10_witness :
    (AITableData.make demoCfg demoSt [["x"]]).filled_cells_count ≤
      (AITableData.make demoCfg demoSt [["x"]]).rows_count *
        (AITableData.make demoCfg demoSt [["x"]]).cols_count ∧
    0 ≤ (AITableData.make demoCfg demoSt [["x"]]).get_fill_percentage ∧
    (AITableData.make demoCfg demoSt [["x"]]).get_fill_percentage ≤ 100 :=
  C10_fill_percentage_bounds.2.1 demoCfg demoSt [["x"]] (by decide)
